import Mathlib

/-!
# Verification of the Layout-Optimizer repository

Shallow embedding of `layout_optimizer.py` (CP-SAT model construction,
solver driver, placement emitter) and `svg2config.py` (SVG → config
compiler).  Integer millimetre quantities are modelled as `ℤ`, SVG
user-unit coordinates as `ℚ`.  Reified CP-SAT constraints
(`OnlyEnforceIf`) are modelled as implications from the Boolean
indicator value to the linear constraint; `AddBoolOr` as a disjunction;
`AddMaxEquality` over Booleans as equality with the disjunction of the
arguments.  A satisfying assignment of the model is a valuation of all
variables making every posted constraint true.
-/

namespace LayoutOpt

/-! ## Pairwise non-overlap block (`layout_optimizer.py` lines 158-169)

For each unordered pair `i < j` the code creates four indicator
Booleans `left/right/below/above`, posts `AddBoolOr` over them and four
reified inequalities with aisle gap `A`. -/

structure SepInd where
  left : Bool
  right : Bool
  below : Bool
  above : Bool

/-- The constraints posted for one unordered pair `(i, j)`:
`AddBoolOr([left, right, below, above])` plus the four
`OnlyEnforceIf`-guarded inequalities. -/
def sepConstraints (A xi wi yi hi xj wj yj hj : ℤ) (s : SepInd) : Prop :=
  (s.left = true ∨ s.right = true ∨ s.below = true ∨ s.above = true) ∧
  (s.left = true → xi + wi + A ≤ xj) ∧
  (s.right = true → xj + wj + A ≤ xi) ∧
  (s.below = true → yi + hi + A ≤ yj) ∧
  (s.above = true → yj + hj + A ≤ yi)

/-- Satisfaction of the whole pairwise block over `n` booths: the code
loops `i` over `range(n)` and `j` over `range(i+1, n)`. -/
def pairwiseSepSat (n : ℕ) (x y w h : ℕ → ℤ) (A : ℤ) (sep : ℕ → ℕ → SepInd) : Prop :=
  ∀ i j, i < j → j < n →
    sepConstraints A (x i) (w i) (y i) (h i) (x j) (w j) (y j) (h j) (sep i j)

/-! ## Rotation logic (`layout_optimizer.py` lines 119-151, 255-348)

Scenario with one booth and one horizontal inner wall `y = y0`,
`x ∈ [xmin, xmax]` (`inner_walls_count_as_wall_contact` enabled, no
vertical inner walls, no rails).  The assignment collects the booth's
model variables and every indicator referenced by the rotation tiers. -/

structure RotScen where
  roomW : ℤ
  roomH : ℤ
  band : ℤ
  y0 : ℤ
  xmin : ℤ
  xmax : ℤ

structure RotAsg where
  x : ℤ
  y : ℤ
  we : ℤ
  he : ℤ
  cx2 : ℤ
  cy2 : ℤ
  rot : Bool
  bb : Bool
  bt : Bool
  bl : Bool
  br : Bool
  tl : Bool
  tr : Bool
  tb : Bool
  tt : Bool
  iwb : Bool
  iwt : Bool
  ncA : Bool
  ncB : Bool
  ncL : Bool
  ncR : Bool
  vAny : Bool
  hAny : Bool
  vBand : Bool
  hBand : Bool

/-- All constraints of the scenario other than the rotation tiers:
variable domains, containment (lines 154-156), centre definitions
(lines 275-277), band biconditionals (lines 132-142), outer-wall touch
implications (lines 260-264), inner-wall non-crossing (lines 229-234),
inner-wall touch implications (lines 312-326), and the
`AddMaxEquality` aggregations (lines 336-338, 345-346). -/
def rotBase (s : RotScen) (a : RotAsg) : Prop :=
  (0 ≤ a.x ∧ a.x ≤ s.roomW ∧ 0 ≤ a.y ∧ a.y ≤ s.roomH) ∧
  (0 ≤ a.we ∧ a.we ≤ s.roomW ∧ 0 ≤ a.he ∧ a.he ≤ s.roomH) ∧
  (a.x + a.we ≤ s.roomW ∧ a.y + a.he ≤ s.roomH) ∧
  (a.cx2 = 2 * a.x + a.we ∧ a.cy2 = 2 * a.y + a.he) ∧
  ((a.bb = true → a.y ≤ s.band) ∧ (a.bb = false → a.y > s.band)) ∧
  ((a.bt = true → a.y + a.he ≥ s.roomH - s.band) ∧
   (a.bt = false → a.y + a.he < s.roomH - s.band)) ∧
  ((a.bl = true → a.x ≤ s.band) ∧ (a.bl = false → a.x > s.band)) ∧
  ((a.br = true → a.x + a.we ≥ s.roomW - s.band) ∧
   (a.br = false → a.x + a.we < s.roomW - s.band)) ∧
  (a.tl = true → a.x = 0) ∧
  (a.tr = true → a.x + a.we = s.roomW) ∧
  (a.tb = true → a.y = 0) ∧
  (a.tt = true → a.y + a.he = s.roomH) ∧
  (a.ncA = true ∨ a.ncB = true ∨ a.ncL = true ∨ a.ncR = true) ∧
  (a.ncA = true → a.y + a.he ≤ s.y0) ∧
  (a.ncB = true → a.y ≥ s.y0) ∧
  (a.ncL = true → a.x + a.we ≤ s.xmin) ∧
  (a.ncR = true → a.x ≥ s.xmax) ∧
  (a.iwb = true → a.y = s.y0) ∧
  (a.iwt = true → a.y + a.he = s.y0) ∧
  (a.iwb = true → 2 * s.xmin ≤ a.cx2 ∧ a.cx2 ≤ 2 * s.xmax) ∧
  (a.iwt = true → 2 * s.xmin ≤ a.cx2 ∧ a.cx2 ≤ 2 * s.xmax) ∧
  (a.vAny = (a.tl || a.tr)) ∧
  (a.hAny = (a.tb || a.tt || a.iwb || a.iwt)) ∧
  (a.vBand = (a.bl || a.br)) ∧
  (a.hBand = (a.bb || a.bt))

/-- Touch tier (lines 340-342): the two reified rotation implications. -/
def touchTier (a : RotAsg) : Prop :=
  (a.vAny = true → a.hAny = false → a.rot = true) ∧
  (a.hAny = true → a.vAny = false → a.rot = false)

/-- Band tier (lines 347-348): the two band-driven rotation implications. -/
def bandTier (a : RotAsg) : Prop :=
  (a.vBand = true → a.hBand = false → a.rot = true) ∧
  (a.hBand = true → a.vBand = false → a.rot = false)

/-- The touch tier decides the rotation: exactly one touch axis is active. -/
def touchDecides (a : RotAsg) : Prop :=
  (a.vAny = true ∧ a.hAny = false) ∨ (a.hAny = true ∧ a.vAny = false)

/-- The rotation constraints exactly as the code posts them: both tiers
are enforced unconditionally (lines 334-348). -/
def codeRotModel (s : RotScen) (a : RotAsg) : Prop :=
  rotBase s a ∧ touchTier a ∧ bandTier a

/-- Modelled from the spec's words for claim C2 (refinement target):
the touch tier takes priority, and *only* when it does not decide do
the band implications apply. -/
def claimRotModel (s : RotScen) (a : RotAsg) : Prop :=
  rotBase s a ∧ touchTier a ∧ (¬ touchDecides a → bandTier a)

set_option synthInstance.maxSize 2000 in
set_option synthInstance.maxHeartbeats 1000000 in
instance (s : RotScen) (a : RotAsg) : Decidable (rotBase s a) := by
  unfold rotBase; infer_instance

instance (a : RotAsg) : Decidable (touchTier a) := by
  unfold touchTier; infer_instance

instance (a : RotAsg) : Decidable (bandTier a) := by
  unfold bandTier; infer_instance

instance (a : RotAsg) : Decidable (touchDecides a) := by
  unfold touchDecides; infer_instance

instance (s : RotScen) (a : RotAsg) : Decidable (codeRotModel s a) := by
  unfold codeRotModel; infer_instance

instance (s : RotScen) (a : RotAsg) : Decidable (claimRotModel s a) := by
  unfold claimRotModel; infer_instance

/-- Concrete scenario: 10000×10000 hall, wall band 500, one horizontal
inner wall `y = 4000` spanning `x ∈ [0, 10000]`. -/
def rotScenEx : RotScen :=
  { roomW := 10000, roomH := 10000, band := 500, y0 := 4000, xmin := 0, xmax := 10000 }

/-- Assignment with the two tiers in conflict: the booth touches the
horizontal inner wall (so only horizontal touch is active, forcing
`rot = 0`) while sitting inside the left wall band with the horizontal
bands inactive (so the band tier forces `rot = 1`). -/
def rotAsgConflict : RotAsg :=
  { x := 0, y := 4000, we := 2000, he := 1000, cx2 := 2000, cy2 := 9000,
    rot := false,
    bb := false, bt := false, bl := true, br := false,
    tl := false, tr := false, tb := false, tt := false,
    iwb := true, iwt := false,
    ncA := false, ncB := true, ncL := false, ncR := false,
    vAny := false, hAny := true, vBand := true, hBand := false }

/-- Assignment satisfying the full code model: booth on the bottom
wall, away from every other wall and from the inner wall. -/
def rotAsgBottom : RotAsg :=
  { x := 600, y := 0, we := 2000, he := 1000, cx2 := 3200, cy2 := 1000,
    rot := false,
    bb := true, bt := false, bl := false, br := false,
    tl := false, tr := false, tb := true, tt := false,
    iwb := false, iwt := false,
    ncA := true, ncB := false, ncL := false, ncR := false,
    vAny := false, hAny := true, vBand := false, hBand := true }

/-! ## Curtain-rail attachment (`layout_optimizer.py` lines 266-270, 350-424) -/

/-- One entry of `config["infrastructure"]["curtain_rails"]`. -/
structure RailCfg where
  p1 : ℤ × ℤ
  p2 : ℤ × ℤ

/-- Classification of the rail list into horizontal `(y0, xmin, xmax)`
and vertical `(x0, ymin, ymax)` rails, skipping diagonal entries
(lines 352-364). -/
def splitRails : List RailCfg → List (ℤ × ℤ × ℤ) × List (ℤ × ℤ × ℤ)
  | [] => ([], [])
  | r :: rest =>
    let p := splitRails rest
    if r.p1.2 = r.p2.2 then
      ((r.p1.2, min r.p1.1 r.p2.1, max r.p1.1 r.p2.1) :: p.1, p.2)
    else if r.p1.1 = r.p2.1 then
      (p.1, (r.p1.1, min r.p1.2 r.p2.2, max r.p1.2 r.p2.2) :: p.2)
    else p

/-- A rail entry of the canonical data model: strictly horizontal or
strictly vertical. -/
def RailCfg.axisAligned (r : RailCfg) : Prop :=
  r.p1.2 = r.p2.2 ∨ r.p1.1 = r.p2.1

/-- `curtain_required` flag, per booth (lines 266-270). -/
def curtainRequired (railMode : String) (wantCurtain : Bool) : Bool :=
  railMode == "all" || (railMode == "if_wanted" && wantCurtain)

/-- One booth's attachment-indicator values: one Boolean per horizontal
rail for the bottom face and one for the top face, one per vertical
rail for the left face and one for the right face. -/
structure AttachAsg where
  hb : List Bool
  ht : List Bool
  vl : List Bool
  vr : List Bool

/-- `attach_vars` collected in source order (lines 412-416). -/
def attachVars (a : AttachAsg) : List Bool :=
  a.hb ++ a.ht ++ a.vl ++ a.vr

/-- The attachment-requirement step (lines 417-424): for a
rail-required booth, when attachment indicators exist post
`sum(attach_vars) == 1`, otherwise raise `ValueError`; for a
non-required booth force every indicator to 0.  The returned Boolean
is whether the posted constraints are satisfied by the given
indicator values. -/
def attachRequireStep (required : Bool) (avars : List Bool) : Except String Bool :=
  if required then
    if avars.isEmpty then
      .error "curtain-required booth present but no rails are defined"
    else
      .ok (avars.count true == 1)
  else
    .ok (avars.all (fun v => v == false))

/-! ## Solver driver, placement emitter and file effects
(`layout_optimizer.py` lines 639-672) -/

inductive CpStatus
  | unknown
  | modelInvalid
  | feasible
  | infeasible
  | optimal
deriving DecidableEq

/-- The success set of the status check on line 646. -/
def statusSuccess : CpStatus → Bool
  | .optimal => true
  | .feasible => true
  | _ => false

/-- Solver values read back for one booth (lines 654-656). -/
structure SolvedBooth where
  id : ℤ
  name : String
  x : ℤ
  y : ℤ
  w : ℤ
  h : ℤ
  rot : ℤ
deriving DecidableEq

/-- `b01` (line 650). -/
def b01 (v : ℤ) : ℤ := if 1 ≤ v then 1 else 0

/-- The three `assert` range checks of lines 658-660. -/
def boothCheck (W H : ℤ) (b : SolvedBooth) : Bool :=
  decide (0 ≤ b.x) && decide (b.x ≤ W) && decide (0 ≤ b.y) && decide (b.y ≤ H) &&
  decide (1 ≤ b.w) && decide (b.w ≤ W) && decide (1 ≤ b.h) && decide (b.h ≤ H) &&
  decide (b.x + b.w ≤ W) && decide (b.y + b.h ≤ H)

/-- One emitted placement record (lines 661-666). -/
structure PRow where
  id : ℤ
  name : String
  x : ℤ
  y : ℤ
  w : ℤ
  h : ℤ
  rot : ℤ
deriving DecidableEq

def toRow (b : SolvedBooth) : PRow :=
  { id := b.id, name := b.name, x := b.x, y := b.y, w := b.w, h := b.h,
    rot := b01 b.rot }

/-- The emission loop (lines 652-666): per booth in order, run the
asserts and build the record; the first failing assert aborts with no
records produced. -/
def emitPlacements (W H : ℤ) : List SolvedBooth → Except String (List PRow)
  | [] => .ok []
  | b :: rest =>
    if boothCheck W H b then
      match emitPlacements W H rest with
      | .ok rows => .ok (toRow b :: rows)
      | .error e => .error e
    else
      .error (b.name ++ " out of range")

/-- The working directory, restricted to the placement table and its
one backup slot. -/
structure FS where
  placement : Option (List PRow)
  prev : Option (List PRow)
deriving DecidableEq

/-- Lines 668-672: if `placement.csv` exists copy it to
`placement.prev.csv`, then write the new table. -/
def writePlacement (rows : List PRow) (fs : FS) : FS :=
  let fs1 := if fs.placement.isSome then { fs with prev := fs.placement } else fs
  { fs1 with placement := some rows }

/-- The tail of the script (model attachment block, single solve,
status check, emission, file writes) over an oracle list of solver
outcomes.  The oracle is consumed one element per `Solve` call, so the
returned remainder witnesses how many times the solver ran.  A raised
exception leaves the file system untouched (the caller keeps `fs`). -/
def runLayout (required : Bool) (avars : List Bool) (W H : ℤ)
    (booths : List SolvedBooth) (oracle : List CpStatus) (fs : FS) :
    Except String FS × List CpStatus :=
  match attachRequireStep required avars with
  | .error e => (.error e, oracle)
  | .ok _ =>
    match oracle with
    | [] => (.error "solver unavailable", [])
    | s :: rest =>
      if statusSuccess s then
        match emitPlacements W H booths with
        | .ok rows => (.ok (writePlacement rows fs), rest)
        | .error e => (.error e, rest)
      else
        (.error "solver status outside the success set; placement.csv not written", rest)

/-- Final file-system state: an exception leaves the directory as it was. -/
def applyResult (r : Except String FS) (fs : FS) : FS :=
  match r with
  | .ok fs1 => fs1
  | .error _ => fs

/-- Aisle-separated non-overlap of two placements (spec section 3,
invariant 3). -/
def sepOK (A : ℤ) (b c : SolvedBooth) : Bool :=
  decide (b.x + b.w + A ≤ c.x) || decide (c.x + c.w + A ≤ b.x) ||
  decide (b.y + b.h + A ≤ c.y) || decide (c.y + c.h + A ≤ b.y)

def pairsSep (A : ℤ) : List SolvedBooth → Bool
  | [] => true
  | b :: rest => rest.all (fun c => sepOK A b c) && pairsSep A rest

/-- Modelled from the spec: the invariants of section 3 that claim C4
says the emitter asserts — containment within the hall,
rotation-consistent effective sizes against the booths' natural
dimensions `nat`, and pairwise aisle-separated non-overlap.  The
source emitter (lines 652-666) is compared against this. -/
def sect3Check (W H A : ℤ) (nat : List (ℤ × ℤ)) (bs : List SolvedBooth) : Bool :=
  bs.all (fun b =>
    decide (0 ≤ b.x) && decide (b.x + b.w ≤ W) &&
    decide (0 ≤ b.y) && decide (b.y + b.h ≤ H)) &&
  (List.zip nat bs).all (fun p =>
    if b01 p.2.rot = 1 then decide (p.2.w = p.1.2) && decide (p.2.h = p.1.1)
    else decide (p.2.w = p.1.1) && decide (p.2.h = p.1.2)) &&
  pairsSep A bs

/-- Two coincident solver placements: inside the hall, but overlapping
each other and with effective sizes transposed against their natural
dimensions. -/
def ovlBoothA : SolvedBooth :=
  { id := 1, name := "A", x := 0, y := 0, w := 2000, h := 1000, rot := 0 }

def ovlBoothB : SolvedBooth :=
  { id := 2, name := "B", x := 0, y := 0, w := 2000, h := 1000, rot := 0 }

/-- Natural dimensions `(w, h)` of the two booths above: with `rot = 0`
the effective sizes should be `(1000, 2000)`, not `(2000, 1000)`. -/
def ovlNat : List (ℤ × ℤ) := [(1000, 2000), (1000, 2000)]

/-- A solver placement failing the range asserts (`w = 0`). -/
def badBooth : SolvedBooth :=
  { id := 3, name := "C", x := 0, y := 0, w := 0, h := 50, rot := 0 }

/-- A solver placement passing the range asserts in a 100×100 hall. -/
def goodBooth : SolvedBooth :=
  { id := 4, name := "D", x := 10, y := 20, w := 30, h := 40, rot := 1 }

/-- An empty working directory. -/
def fsEmpty : FS := { placement := none, prev := none }

/-- Whether the emitter (or the run) completed without raising. -/
def isOkE {α : Type} (r : Except String α) : Bool :=
  match r with
  | .ok _ => true
  | .error _ => false

end LayoutOpt

namespace Py

/-! ## Python numeric and string semantics

`round` in Python 3 rounds to the nearest integer with ties to even;
`int()` on a float truncates toward zero; `float()` parses a signed
decimal literal with optional fraction and exponent.  The embedding
works over `ℚ`; the source computes over binary floats, whose
representation error is not modelled. -/

/-- Python `round(q)`: nearest integer, ties to even. -/
def pyRound (q : ℚ) : ℤ :=
  if q - ⌊q⌋ < 1/2 then ⌊q⌋
  else if 1/2 < q - ⌊q⌋ then ⌊q⌋ + 1
  else if 2 ∣ ⌊q⌋ then ⌊q⌋ else ⌊q⌋ + 1

/-- Python `str.strip` whitespace set. -/
def isPySpace (c : Char) : Bool :=
  c = ' ' || c = '\t' || c = '\n' || c = '\r' || c = '\x0b' || c = '\x0c'

def stripChars (cs : List Char) : List Char :=
  ((cs.dropWhile isPySpace).reverse.dropWhile isPySpace).reverse

/-- ASCII lower-casing, as `str.lower` acts on the characters used here. -/
def lowerChar (c : Char) : Char :=
  if 'A' ≤ c ∧ c ≤ 'Z' then Char.ofNat (c.toNat + 32) else c

/-- `color.strip().lower()`. -/
def strippedLower (s : String) : String :=
  String.mk ((stripChars s.data).map lowerChar)

def isDigitChar (c : Char) : Bool := '0' ≤ c && c ≤ '9'

def digitVal (c : Char) : ℕ := c.toNat - '0'.toNat

def natOfDigits (ds : List Char) : ℕ :=
  ds.foldl (fun acc c => 10 * acc + digitVal c) 0

/-- Exponent suffix of a float literal: optional sign then digits,
consuming the whole remainder; the mantissa fraction `sign * m / d` is
adjusted by the power of ten. -/
def parseExpFrac (sign : ℤ) (m d : ℕ) (t : List Char) : Option (ℤ × ℕ) :=
  let p : Bool × List Char :=
    match t with
    | '+' :: r => (false, r)
    | '-' :: r => (true, r)
    | _ => (false, t)
  let ed := p.2.takeWhile isDigitChar
  let rest := p.2.dropWhile isDigitChar
  if ed.isEmpty || !rest.isEmpty then none
  else
    let e := natOfDigits ed
    if p.1 then some (sign * m, d * 10 ^ e)
    else some (sign * m * 10 ^ e, d)

/-- Python `float()` on a plain decimal literal
(`[+-]? (digits [. digits?] | . digits) ([eE][+-]?digits)?`),
represented as an exact fraction numerator/denominator (the source
computes with binary floats; their representation error is not
modelled, and the exotic accepted forms `inf`, `nan` and underscores
do not occur in this pipeline). -/
def parseFloatFrac (cs : List Char) : Option (ℤ × ℕ) :=
  let s : ℤ × List Char :=
    match cs with
    | '+' :: t => (1, t)
    | '-' :: t => (-1, t)
    | _ => (1, cs)
  let ip := s.2.takeWhile isDigitChar
  let cs2 := s.2.dropWhile isDigitChar
  let f : List Char × List Char :=
    match cs2 with
    | '.' :: t => (t.takeWhile isDigitChar, t.dropWhile isDigitChar)
    | _ => ([], cs2)
  if ip.isEmpty && f.1.isEmpty then none
  else
    let m : ℕ := natOfDigits ip * 10 ^ f.1.length + natOfDigits f.1
    let d : ℕ := 10 ^ f.1.length
    match f.2 with
    | [] => some (s.1 * m, d)
    | 'e' :: t => parseExpFrac s.1 m d t
    | 'E' :: t => parseExpFrac s.1 m d t
    | _ => none

/-- Python `float(s)`: surrounding whitespace is ignored. -/
def pyFloatFrac (s : String) : Option (ℤ × ℕ) :=
  parseFloatFrac (stripChars s.data)

/-- Python `round` on the exact value `num / den` (`den > 0`):
nearest integer, ties to even, by integer arithmetic. -/
def pyRoundFrac (num : ℤ) (den : ℕ) : ℤ :=
  let f := Int.fdiv num den
  let r2 := 2 * (num - f * den)
  if r2 < (den : ℤ) then f
  else if (den : ℤ) < r2 then f + 1
  else if 2 ∣ f then f else f + 1

/-- Python `int()` on the value `num / den`: truncation toward zero. -/
def pyTruncFrac (num : ℤ) (den : ℕ) : ℤ :=
  Int.tdiv num den

end Py

namespace Svg2Config

/-! ## Rail extraction (`svg2config.py` lines 28, 86-109, 124-187) -/

/-- `EPS_ALIGN = 0.5`. -/
def EPS_ALIGN : ℚ := 1/2

/-- Python `round(q, 3)`: nearest thousandth, ties to even. -/
def pyRound3 (q : ℚ) : ℚ :=
  (Py.pyRound (q * 1000) : ℚ) / 1000

inductive RailGeom
  | vertical (x ymin ymax : ℚ)
  | horizontal (y xmin xmax : ℚ)
deriving DecidableEq

/-- Classification of one rail candidate from its first and last points
(lines 162-185): vertical when `|x1 - x2| ≤ EPS_ALIGN` (mean x, sorted
y-range), else horizontal when `|y1 - y2| ≤ EPS_ALIGN`, else dropped;
emitted coordinates are rounded to three decimals. -/
def classifyRail (x1 y1 x2 y2 : ℚ) : Option RailGeom :=
  if |x1 - x2| ≤ EPS_ALIGN then
    some (.vertical (pyRound3 ((x1 + x2) / 2))
      (pyRound3 (min y1 y2)) (pyRound3 (max y1 y2)))
  else if |y1 - y2| ≤ EPS_ALIGN then
    some (.horizontal (pyRound3 ((y1 + y2) / 2))
      (pyRound3 (min x1 x2)) (pyRound3 (max x1 x2)))
  else none

/-- First and last points of a `path` or `polyline` after numeric
tokenisation (lines 86-109): `(nums[0], nums[1], nums[-2], nums[-1])`,
or nothing when fewer than four numbers are present. -/
def firstLastXY (nums : List ℚ) : Option (ℚ × ℚ × ℚ × ℚ) :=
  if nums.length < 4 then none
  else some (nums.getD 0 0, nums.getD 1 0,
    nums.getD (nums.length - 2) 0, nums.getD (nums.length - 1) 0)

/-! ## Output scaling (`svg2config.py` lines 189-190, 290-300, 541-548) -/

/-- `SCALE_OUT = 2108407/597700` (a Python float division; modelled
exactly as a rational). -/
def SCALE_OUT : ℚ := 2108407 / 597700

/-- A JSON value as assembled by `parse_svg`. -/
inductive JVal
  | jint (n : ℤ)
  | jnum (q : ℚ)
  | jbool (b : Bool)
  | jstr (s : String)
  | jarr (l : List JVal)
  | jobj (l : List (String × JVal))

mutual

/-- `_scale_dims` (lines 290-300): recurse through dicts and lists,
leave Booleans (checked before numbers, since `bool` subclasses `int`)
and strings alone, and replace every numeric leaf by
`int(round(obj * s))`. -/
def scaleDims (s : ℚ) : JVal → JVal
  | .jint n => .jint (Py.pyRound (n * s))
  | .jnum q => .jint (Py.pyRound (q * s))
  | .jbool b => .jbool b
  | .jstr t => .jstr t
  | .jarr l => .jarr (scaleDimsList s l)
  | .jobj l => .jobj (scaleDimsObj s l)

def scaleDimsList (s : ℚ) : List JVal → List JVal
  | [] => []
  | v :: t => scaleDims s v :: scaleDimsList s t

def scaleDimsObj (s : ℚ) : List (String × JVal) → List (String × JVal)
  | [] => []
  | kv :: t => (kv.1, scaleDims s kv.2) :: scaleDimsObj s t

end

/-- The assembled configuration object (lines 342-376). -/
structure Cfg where
  room : JVal
  infrastructure : JVal
  requirements : List (String × JVal)
  weights : JVal

/-- The three requirements keys holding millimetre values (line 546). -/
def mmReqKeys : List String :=
  ["front_clear_mm", "outlet_demand_hard_radius_mm", "outlet_reserve_radius_mm"]

/-- Scaling of one requirements entry
(`int(round(value * SCALE_OUT))`); the three keys hold integers in the
assembled configuration. -/
def scaleReqVal (s : ℚ) : JVal → JVal
  | .jint n => .jint (Py.pyRound (n * s))
  | v => v

/-- The scaling application in `main` (lines 541-548): guarded by
`SCALE_OUT` being non-zero and different from 1, scale the `room` and
`infrastructure` blocks wholesale and, inside `requirements`, only the
mm-valued keys; `weights` is not touched. -/
def applyScaling (c : Cfg) : Cfg :=
  if SCALE_OUT ≠ 0 ∧ SCALE_OUT ≠ 1 then
    { room := scaleDims SCALE_OUT c.room,
      infrastructure := scaleDims SCALE_OUT c.infrastructure,
      requirements := c.requirements.map
        (fun kv => if kv.1 ∈ mmReqKeys then (kv.1, scaleReqVal SCALE_OUT kv.2) else kv),
      weights := c.weights }
  else c

end Svg2Config

namespace LayoutOpt

/-! ## Preferred-area columns (`layout_optimizer.py` lines 64-99, 171-193) -/

/-- `_to_int_or_none` (lines 64-71): strip, empty means absent,
otherwise `int(float(s))` (truncation toward zero), any parse failure
caught and mapped to `None`. -/
def toIntOrNone (s : Option String) : Option ℤ :=
  match s with
  | none => none
  | some str =>
    let t := String.mk (Py.stripChars str.data)
    if t = "" then none
    else
      match Py.pyFloatFrac t with
      | some f => some (Py.pyTruncFrac f.1 f.2)
      | none => none

/-- One `pref_rects` entry (lines 85-93): the rectangle only when all
four columns parsed. -/
def parsePrefRect (a b c d : Option String) : Option (ℤ × ℤ × ℤ × ℤ) :=
  match toIntOrNone a, toIntOrNone b, toIntOrNone c, toIntOrNone d with
  | some x1, some y1, some x2, some y2 => some (x1, y1, x2, y2)
  | _, _, _, _ => none

/-- One `pref_hard` entry (lines 95-99): missing or blank column takes
the configured default, otherwise membership of the lower-cased token
in `("1", "true", "yes")`. -/
def parsePrefHard (flag : Option String) (defaultHard : Bool) : Bool :=
  match flag with
  | none => defaultHard
  | some f =>
    if String.mk (Py.stripChars f.data) = "" then defaultHard
    else
      let l := String.mk ((Py.stripChars f.data).map Py.lowerChar)
      l == "1" || l == "true" || l == "yes"

/-- What the preferred-area block (lines 174-193) adds for one booth:
nothing, the four hard containment constraints, or a soft bonus
indicator implying containment. -/
inductive PrefOut
  | noConstraint
  | hardRect (xmin ymin xmax ymax : ℤ)
  | softRect (xmin ymin xmax ymax : ℤ)
deriving DecidableEq

def prefAreaStep (r : Option (ℤ × ℤ × ℤ × ℤ)) (hard : Bool) : PrefOut :=
  match r with
  | none => .noConstraint
  | some rect =>
    if hard then .hardRect rect.1 rect.2.1 rect.2.2.1 rect.2.2.2
    else .softRect rect.1 rect.2.1 rect.2.2.1 rect.2.2.2

end LayoutOpt

namespace Svg2Config

/-! ## Colour normalisation (`svg2config.py` lines 40-53, 195-226)

Two resolvers exist: `_to_hex` (used for fills/strokes of outlets,
inner walls, no-go zones and the room) and `_norm_hex` (used for
curtain-rail strokes and the rail colour table). -/

def isHexLower (c : Char) : Bool :=
  ('0' ≤ c && c ≤ '9') || ('a' ≤ c && c ≤ 'f')

/-- Match of `^#[0-9a-f]{3}$` on an already lower-cased string. -/
def isHex3 (cs : List Char) : Bool :=
  cs.length == 4 && cs.headD ' ' == '#' && (cs.drop 1).all isHexLower

/-- Match of `^#[0-9a-f]{6}$`. -/
def isHex6 (cs : List Char) : Bool :=
  cs.length == 7 && cs.headD ' ' == '#' && (cs.drop 1).all isHexLower

/-- `"#" + "".join(ch*2 for ch in c[1:])`: each hex digit doubled. -/
def double3 (cs : List Char) : List Char :=
  '#' :: (cs.drop 1).foldr (fun ch acc => ch :: ch :: acc) []

/-- Lower-case `#rrggbb` form. -/
def isCanonicalHex (s : String) : Bool := isHex6 s.data

def hexDigitChar (n : ℕ) : Char :=
  if n < 10 then Char.ofNat ('0'.toNat + n) else Char.ofNat ('a'.toNat + (n - 10))

/-- `"%02x"` of a byte value. -/
def byteHex (n : ℕ) : List Char := [hexDigitChar (n / 16), hexDigitChar (n % 16)]

/-- `"#\x7b:02x\x7d\x7b:02x\x7d\x7b:02x\x7d".format(r, g, b)`. -/
def fmtRGB (r g b : ℕ) : String :=
  String.mk ('#' :: (byteHex r ++ byteHex g ++ byteHex b))

/-- `max(0, min(255, v))`. -/
def clamp255 (v : ℤ) : ℤ := max 0 (min 255 v)

/-- The `NAMED` table (lines 195-199). -/
def NAMED : List (String × String) :=
  [("black", "#000000"), ("white", "#ffffff"), ("red", "#ff0000"),
   ("green", "#008000"), ("blue", "#0000ff"), ("magenta", "#ff00ff"),
   ("fuchsia", "#ff00ff"), ("yellow", "#ffff00"), ("gray", "#808080"),
   ("grey", "#808080"), ("orange", "#ffa500"), ("cyan", "#00ffff"),
   ("aqua", "#00ffff"), ("lime", "#00ff00"), ("navy", "#000080")]

/-- Dictionary lookup `NAMED[c]` guarded by `c in NAMED`. -/
def namedColor (c : String) : Option String :=
  match NAMED.find? (fun kv => kv.1 == c) with
  | some kv => some kv.2
  | none => none

/-- Prefix match of `rgba?` followed by a parenthesis: the capture is
the non-empty run up to the first closing parenthesis, which must be
present; trailing text is allowed (the pattern is unanchored at the
end). -/
def rgbContent (cs : List Char) : Option (List Char) :=
  let after : Option (List Char) :=
    match cs with
    | 'r' :: 'g' :: 'b' :: 'a' :: '(' :: t => some t
    | 'r' :: 'g' :: 'b' :: '(' :: t => some t
    | _ => none
  match after with
  | none => none
  | some t =>
    let content := t.takeWhile (fun ch => ch ≠ ')')
    if content.isEmpty then none
    else
      match t.dropWhile (fun ch => ch ≠ ')') with
      | ')' :: _ => some content
      | _ => none

/-- Python `str.split(",")` on the captured component list. -/
def splitOnComma (cs : List Char) : List (List Char) :=
  match cs with
  | [] => [[]]
  | ',' :: t => [] :: splitOnComma t
  | a :: t =>
    match splitOnComma t with
    | h :: r => (a :: h) :: r
    | [] => [[a]]

/-- One `rgb()` component as `_to_hex` evaluates it (lines 216-223):
`_clamp255` composed with the outer `int(round(...))` — a percentage
component is `round(float(v) * 2.55)` with `2.55 = 51/20` taken exact,
a plain component `round(float(v))`; `none` models the `ValueError`
from `float()` that the code does not catch. -/
def rgbComp (p : List Char) : Option ℤ :=
  let t := Py.stripChars p
  match t.getLast? with
  | some '%' =>
    (Py.parseFloatFrac t.dropLast).map
      (fun f => Py.pyRoundFrac (f.1 * 51) (f.2 * 20))
  | _ =>
    (Py.parseFloatFrac t).map (fun f => Py.pyRoundFrac f.1 f.2)

/-- `_to_hex` (lines 200-226).  `.ok none` is the Python `None`
result; `.error` models the uncaught `ValueError` raised by `float()`
on a malformed `rgb()` component. -/
def toHex (color : Option String) : Except String (Option String) :=
  match color with
  | none => .ok none
  | some raw =>
    if raw = "" then .ok none
    else
      let c := Py.strippedLower raw
      if c = "none" then .ok none
      else
        match namedColor c with
        | some h => .ok (some h)
        | none =>
          if isHex3 c.data then .ok (some (String.mk (double3 c.data)))
          else if isHex6 c.data then .ok (some c)
          else
            match rgbContent c.data with
            | some content =>
              match splitOnComma content with
              | p0 :: p1 :: p2 :: _ =>
                match rgbComp p0, rgbComp p1, rgbComp p2 with
                | some r, some g, some b =>
                  .ok (some (fmtRGB (clamp255 r).toNat (clamp255 g).toNat
                    (clamp255 b).toNat))
                | _, _, _ => .error "could not convert string to float"
              | _ => .ok none
            | none => .ok none

/-- The integer `rgb` prefix pattern of `_norm_hex` (line 45): three
runs of digits separated by commas with optional surrounding
whitespace, closed by a parenthesis; no `rgba`, sign, or percentage
form. -/
def rgbIntTriple (cs : List Char) : Option (ℕ × ℕ × ℕ) :=
  match cs with
  | 'r' :: 'g' :: 'b' :: '(' :: t0 =>
    let t1 := t0.dropWhile Py.isPySpace
    let d1 := t1.takeWhile Py.isDigitChar
    let t2 := (t1.dropWhile Py.isDigitChar).dropWhile Py.isPySpace
    if d1.isEmpty then none
    else
      match t2 with
      | ',' :: t3 =>
        let t4 := t3.dropWhile Py.isPySpace
        let d2 := t4.takeWhile Py.isDigitChar
        let t5 := (t4.dropWhile Py.isDigitChar).dropWhile Py.isPySpace
        if d2.isEmpty then none
        else
          match t5 with
          | ',' :: t6 =>
            let t7 := t6.dropWhile Py.isPySpace
            let d3 := t7.takeWhile Py.isDigitChar
            let t8 := (t7.dropWhile Py.isDigitChar).dropWhile Py.isPySpace
            if d3.isEmpty then none
            else
              match t8 with
              | ')' :: _ =>
                some (Py.natOfDigits d1, Py.natOfDigits d2, Py.natOfDigits d3)
              | _ => none
          | _ => none
      | _ => none
  | _ => none

/-- `_norm_hex` (lines 40-53): integer `rgb()` is formatted with
components clamped to 255, exact 3- and 6-digit hex are normalised,
and any other non-empty input is returned unchanged (stripped and
lower-cased) rather than mapped to `None`. -/
def normHex (color : Option String) : Option String :=
  match color with
  | none => none
  | some raw =>
    if raw = "" then none
    else
      let c := Py.strippedLower raw
      match rgbIntTriple c.data with
      | some t => some (fmtRGB (min 255 t.1) (min 255 t.2.1) (min 255 t.2.2))
      | none =>
        if isHex3 c.data then some (String.mk (double3 c.data))
        else if isHex6 c.data then some c
        else some c

end Svg2Config

/-! ## Claim theorems -/

/-- **C1.** For every pair of distinct booths `i ≠ j`, any assignment
satisfying the pairwise non-overlap block of the model satisfies at
least one of the four aisle-separated conditions with gap `A`. -/
theorem C1_pairwise_aisle_separation
    (n : ℕ) (x y w h : ℕ → ℤ) (A : ℤ) (sep : ℕ → ℕ → LayoutOpt.SepInd)
    (hsat : LayoutOpt.pairwiseSepSat n x y w h A sep)
    (i j : ℕ) (hi : i < n) (hj : j < n) (hne : i ≠ j) :
    x i + w i + A ≤ x j ∨ x j + w j + A ≤ x i ∨
    y i + h i + A ≤ y j ∨ y j + h j + A ≤ y i := by
  rcases lt_or_gt_of_ne hne with hlt | hgt
  · obtain ⟨hor, hL, hR, hB, hA⟩ := hsat i j hlt hj
    rcases hor with hc | hc | hc | hc
    · exact Or.inl (hL hc)
    · exact Or.inr (Or.inl (hR hc))
    · exact Or.inr (Or.inr (Or.inl (hB hc)))
    · exact Or.inr (Or.inr (Or.inr (hA hc)))
  · obtain ⟨hor, hL, hR, hB, hA⟩ := hsat j i hgt hi
    rcases hor with hc | hc | hc | hc
    · exact Or.inr (Or.inl (hL hc))
    · exact Or.inl (hR hc)
    · exact Or.inr (Or.inr (Or.inr (hB hc)))
    · exact Or.inr (Or.inr (Or.inl (hA hc)))

/-- Witness for C1: two concrete booths, the first strictly to the left
of the second with an aisle of 1000. -/
theorem C1_pairwise_aisle_separation_witness :
    let x : ℕ → ℤ := fun k => if k = 0 then 0 else 3000
    let y : ℕ → ℤ := fun _ => 0
    let w : ℕ → ℤ := fun _ => 2000
    let h : ℕ → ℤ := fun _ => 1500
    let sep : ℕ → ℕ → LayoutOpt.SepInd := fun _ _ => ⟨true, false, false, false⟩
    x 0 + w 0 + 1000 ≤ x 1 ∨ x 1 + w 1 + 1000 ≤ x 0 ∨
    y 0 + h 0 + 1000 ≤ y 1 ∨ y 1 + h 1 + 1000 ≤ y 0 := by
  intro x y w h sep
  refine C1_pairwise_aisle_separation 2 x y w h 1000 sep ?_ 0 1 (by decide) (by decide) (by decide)
  intro i j hij hj
  interval_cases j
  · omega
  · interval_cases i
    refine ⟨Or.inl rfl, ?_, ?_, ?_, ?_⟩
    · intro _; simp [x, w]
    · intro hc; simp [sep] at hc
    · intro hc; simp [sep] at hc
    · intro hc; simp [sep] at hc

/-- Counterexample for **C2**: an assignment that satisfies the
spec-modelled two-tier-with-priority semantics (the touch tier decides
`rot = 0`, so under the claim the band indicators do not apply) but is
rejected by the constraints the code actually posts, because the band
implication `vBand ∧ ¬hBand → rot = 1` is enforced unconditionally. -/
theorem C2_counterexample :
    LayoutOpt.claimRotModel LayoutOpt.rotScenEx LayoutOpt.rotAsgConflict ∧
    ¬ LayoutOpt.codeRotModel LayoutOpt.rotScenEx LayoutOpt.rotAsgConflict := by
  constructor <;> decide

/-- **C2 (amended).** The rotation constraints consist of the touch-tier
implications and the band-tier implications enforced *unconditionally*
(not only when the touch tier fails to decide): every satisfying
assignment of the code's model satisfies both tiers (and hence the
claim's weaker two-tier reading), and in a state where the touch tier
forces `rot = 0` while the band tier forces `rot = 1` the model is
infeasible for either rotation value, rather than the touch tier
taking priority. -/
theorem C2_rotation_two_tier_amended :
    (∀ (s : LayoutOpt.RotScen) (a : LayoutOpt.RotAsg),
      LayoutOpt.codeRotModel s a →
        LayoutOpt.claimRotModel s a ∧ LayoutOpt.bandTier a) ∧
    (∀ b : Bool,
      ¬ LayoutOpt.codeRotModel LayoutOpt.rotScenEx { LayoutOpt.rotAsgConflict with rot := b }) := by
  constructor
  · intro s a h
    exact ⟨⟨h.1, h.2.1, fun _ => h.2.2⟩, h.2.2⟩
  · decide

/-- Witness for the amended C2: the bottom-wall assignment satisfies
the code's rotation model, and the theorem yields both tiers for it. -/
theorem C2_rotation_two_tier_amended_witness :
    LayoutOpt.codeRotModel LayoutOpt.rotScenEx LayoutOpt.rotAsgBottom ∧
    (LayoutOpt.claimRotModel LayoutOpt.rotScenEx LayoutOpt.rotAsgBottom ∧
     LayoutOpt.bandTier LayoutOpt.rotAsgBottom) :=
  ⟨by decide,
   C2_rotation_two_tier_amended.1 LayoutOpt.rotScenEx LayoutOpt.rotAsgBottom (by decide)⟩

theorem splitRails_eq_nil_iff (cfg : List LayoutOpt.RailCfg)
    (h : ∀ r ∈ cfg, r.axisAligned) :
    ((LayoutOpt.splitRails cfg).1 = [] ∧ (LayoutOpt.splitRails cfg).2 = []) ↔ cfg = [] := by
  cases cfg with
  | nil => simp [LayoutOpt.splitRails]
  | cons r rest =>
    have hr := h r (List.mem_cons_self r rest)
    rcases hr with h1 | h2
    · simp [LayoutOpt.splitRails, h1]
    · by_cases hy : r.p1.2 = r.p2.2
      · simp [LayoutOpt.splitRails, hy]
      · simp [LayoutOpt.splitRails, hy, h2]

/-- **C3.** A booth is rail-required iff `curtain_rail_mode = all`, or
`= if_wanted` and the booth wants curtain.  For a rail-required booth
with at least one attachment indicator the model is satisfied exactly
when one indicator is true; with no rails the run raises before the
solver is ever invoked (the status oracle is returned untouched); for
a non-rail-required booth the constraints force every indicator false.
With axis-aligned rails (the canonical data model) and indicator lists
sized by the rail classification, indicators exist iff at least one
rail is defined. -/
theorem C3_rail_attachment :
    (∀ (mode : String) (want : Bool),
      LayoutOpt.curtainRequired mode want = true ↔
        (mode = "all" ∨ (mode = "if_wanted" ∧ want = true))) ∧
    (∀ avars : List Bool, avars ≠ [] →
      (LayoutOpt.attachRequireStep true avars = .ok true ↔ avars.count true = 1)) ∧
    (∀ (W H : ℤ) (booths : List LayoutOpt.SolvedBooth)
       (oracle : List LayoutOpt.CpStatus) (fs : LayoutOpt.FS),
      (LayoutOpt.runLayout true [] W H booths oracle fs).1 =
        .error "curtain-required booth present but no rails are defined" ∧
      (LayoutOpt.runLayout true [] W H booths oracle fs).2 = oracle) ∧
    (∀ avars : List Bool,
      (LayoutOpt.attachRequireStep false avars = .ok true ↔ ∀ v ∈ avars, v = false)) ∧
    (∀ (cfg : List LayoutOpt.RailCfg) (a : LayoutOpt.AttachAsg),
      (∀ r ∈ cfg, r.axisAligned) →
      a.hb.length = (LayoutOpt.splitRails cfg).1.length →
      a.ht.length = (LayoutOpt.splitRails cfg).1.length →
      a.vl.length = (LayoutOpt.splitRails cfg).2.length →
      a.vr.length = (LayoutOpt.splitRails cfg).2.length →
      (LayoutOpt.attachVars a = [] ↔ cfg = [])) := by
  refine ⟨?_, ?_, ?_, ?_, ?_⟩
  · intro mode want
    simp [LayoutOpt.curtainRequired]
  · intro avars hne
    have hemp : avars.isEmpty = false := by
      cases avars with
      | nil => simp at hne
      | cons a l => rfl
    simp [LayoutOpt.attachRequireStep, hemp]
  · intro W H booths oracle fs
    constructor <;> rfl
  · intro avars
    simp [LayoutOpt.attachRequireStep]
  · intro cfg a hax h1 h2 h3 h4
    have hsplit := splitRails_eq_nil_iff cfg hax
    constructor
    · intro hnil
      have h0 : a.hb = [] ∧ a.ht = [] ∧ a.vl = [] ∧ a.vr = [] := by
        simpa [LayoutOpt.attachVars] using hnil
      apply hsplit.mp
      constructor
      · have : (LayoutOpt.splitRails cfg).1.length = 0 := by
          rw [← h1, h0.1]; rfl
        exact List.length_eq_zero.mp this
      · have : (LayoutOpt.splitRails cfg).2.length = 0 := by
          rw [← h3, h0.2.2.1]; rfl
        exact List.length_eq_zero.mp this
    · intro hcfg
      subst hcfg
      have e1 : a.hb = [] := List.length_eq_zero.mp (by rw [h1]; rfl)
      have e2 : a.ht = [] := List.length_eq_zero.mp (by rw [h2]; rfl)
      have e3 : a.vl = [] := List.length_eq_zero.mp (by rw [h3]; rfl)
      have e4 : a.vr = [] := List.length_eq_zero.mp (by rw [h4]; rfl)
      simp [LayoutOpt.attachVars, e1, e2, e3, e4]

/-- Witness for C3: with one attachment indicator true out of two, the
requirement constraints of a rail-required booth are satisfied. -/
theorem C3_rail_attachment_witness :
    LayoutOpt.attachRequireStep true [true, false] = .ok true :=
  (C3_rail_attachment.2.1 [true, false] (by decide)).mpr (by decide)

/-- Counterexample for **C4**: two coincident placements whose
effective sizes are transposed against their natural dimensions pass
every assertion of the emitter (the records are produced), yet they
violate the section-3 invariants — rotation-consistent sizes and
pairwise aisle-separated non-overlap — that the claim says the emitter
asserts. -/
theorem C4_counterexample :
    LayoutOpt.emitPlacements 10000 10000 [LayoutOpt.ovlBoothA, LayoutOpt.ovlBoothB] =
      .ok [LayoutOpt.toRow LayoutOpt.ovlBoothA, LayoutOpt.toRow LayoutOpt.ovlBoothB] ∧
    LayoutOpt.sect3Check 10000 10000 1000 LayoutOpt.ovlNat
      [LayoutOpt.ovlBoothA, LayoutOpt.ovlBoothB] = false := by
  exact ⟨rfl, rfl⟩

/-- **C4 (amended).** Before writing the placement record the emitter
reads the solver values and asserts, per booth, only the range checks
`0 ≤ x ≤ W`, `0 ≤ y ≤ H`, `1 ≤ w_eff ≤ W`, `1 ≤ h_eff ≤ H`,
`x + w_eff ≤ W`, `y + h_eff ≤ H`: emission succeeds exactly when every
booth passes them, the emitted records are the read values (with the
rotation bit normalised by `b01`) and nothing else is checked; if any
assert fails the run aborts and the working directory is left
untouched.  Rotation-consistency and pairwise non-overlap are not
re-asserted at emission. -/
theorem C4_emitter_asserts_amended :
    (∀ (W H : ℤ) (bs : List LayoutOpt.SolvedBooth),
      LayoutOpt.isOkE (LayoutOpt.emitPlacements W H bs) = true ↔
        ∀ b ∈ bs, LayoutOpt.boothCheck W H b = true) ∧
    (∀ (W H : ℤ) (bs : List LayoutOpt.SolvedBooth) (rows : List LayoutOpt.PRow),
      LayoutOpt.emitPlacements W H bs = .ok rows → rows = bs.map LayoutOpt.toRow) ∧
    (∀ (W H : ℤ) (bs : List LayoutOpt.SolvedBooth),
      LayoutOpt.isOkE (LayoutOpt.emitPlacements W H bs) = false →
      ∀ (required : Bool) (avars : List Bool) (oracle : List LayoutOpt.CpStatus)
        (fs : LayoutOpt.FS),
        LayoutOpt.applyResult (LayoutOpt.runLayout required avars W H bs oracle fs).1 fs
          = fs) := by
  refine ⟨?_, ?_, ?_⟩
  · intro W H bs
    induction bs with
    | nil => simp [LayoutOpt.emitPlacements, LayoutOpt.isOkE]
    | cons b rest ih =>
      cases hcb : LayoutOpt.boothCheck W H b with
      | false =>
        simp only [LayoutOpt.emitPlacements, hcb, Bool.false_eq_true, if_false,
          LayoutOpt.isOkE]
        constructor
        · intro h
          cases h
        · intro hall
          exact absurd (hall b (List.mem_cons_self b rest)) (by simp [hcb])
      | true =>
        rcases hrest : LayoutOpt.emitPlacements W H rest with e | rows <;>
          rw [hrest] at ih <;>
          simp only [LayoutOpt.isOkE] at ih <;>
          simp only [LayoutOpt.emitPlacements, hcb, if_true, hrest, LayoutOpt.isOkE]
        · constructor
          · intro h
            cases h
          · intro hall
            have h2 : (false : Bool) = true :=
              ih.mpr (fun b2 hb2 => hall b2 (List.mem_cons_of_mem b hb2))
            cases h2
        · constructor
          · intro _ b2 hb2
            rcases List.mem_cons.mp hb2 with rfl | hmem
            · exact hcb
            · exact ih.mp trivial b2 hmem
          · intro _
            trivial
  · intro W H bs
    induction bs with
    | nil =>
      intro rows h
      simp only [LayoutOpt.emitPlacements, Except.ok.injEq] at h
      simp [← h]
    | cons b rest ih =>
      intro rows h
      cases hcb : LayoutOpt.boothCheck W H b with
      | false => simp [LayoutOpt.emitPlacements, hcb] at h
      | true =>
        rcases hrest : LayoutOpt.emitPlacements W H rest with e | rows2
        · simp [LayoutOpt.emitPlacements, hcb, hrest] at h
        · simp only [LayoutOpt.emitPlacements, hcb, if_true, hrest,
            Except.ok.injEq] at h
          rw [← h, List.map_cons, ih rows2 hrest]
  · intro W H bs hfail required avars oracle fs
    rcases hb : LayoutOpt.attachRequireStep required avars with e | sat
    · simp [LayoutOpt.runLayout, hb, LayoutOpt.applyResult]
    · rcases oracle with _ | ⟨s, rest⟩
      · simp [LayoutOpt.runLayout, hb, LayoutOpt.applyResult]
      · cases hs : LayoutOpt.statusSuccess s with
        | false => simp [LayoutOpt.runLayout, hb, hs, LayoutOpt.applyResult]
        | true =>
          rcases hemit : LayoutOpt.emitPlacements W H bs with e2 | rows
          · simp [LayoutOpt.runLayout, hb, hs, hemit, LayoutOpt.applyResult]
          · rw [hemit] at hfail
            simp [LayoutOpt.isOkE] at hfail

/-- Witness for the amended C4: a failing range check (`w_eff = 0`)
makes the run abort and leaves an existing placement table unchanged. -/
theorem C4_emitter_asserts_amended_witness :
    LayoutOpt.applyResult
      (LayoutOpt.runLayout false [] 100 100 [LayoutOpt.badBooth]
        [LayoutOpt.CpStatus.optimal]
        { placement := some [LayoutOpt.toRow LayoutOpt.goodBooth], prev := none }).1
      { placement := some [LayoutOpt.toRow LayoutOpt.goodBooth], prev := none }
    = { placement := some [LayoutOpt.toRow LayoutOpt.goodBooth], prev := none } :=
  C4_emitter_asserts_amended.2.2 100 100 [LayoutOpt.badBooth] (by decide) false []
    [LayoutOpt.CpStatus.optimal]
    { placement := some [LayoutOpt.toRow LayoutOpt.goodBooth], prev := none }

/-- **C5.** The solver is invoked exactly once (exactly one element of
the status oracle is consumed); a terminal status of `OPTIMAL` or
`FEASIBLE` is success and the incumbent placement is written, while
any other terminal status (`INFEASIBLE`, `UNKNOWN`, `MODEL_INVALID`,
timeout with no incumbent) raises, produces no output, and leaves any
pre-existing placement table unchanged. -/
theorem C5_solver_driver
    (required : Bool) (avars : List Bool) (W H : ℤ)
    (bs : List LayoutOpt.SolvedBooth) (sat : Bool)
    (hbuild : LayoutOpt.attachRequireStep required avars = .ok sat)
    (rows : List LayoutOpt.PRow)
    (hemit : LayoutOpt.emitPlacements W H bs = .ok rows)
    (s : LayoutOpt.CpStatus) (rest : List LayoutOpt.CpStatus) (fs : LayoutOpt.FS) :
    (LayoutOpt.runLayout required avars W H bs (s :: rest) fs).2 = rest ∧
    (LayoutOpt.statusSuccess s = true ↔
      (s = .optimal ∨ s = .feasible)) ∧
    (LayoutOpt.statusSuccess s = true →
      (LayoutOpt.runLayout required avars W H bs (s :: rest) fs).1 =
        .ok (LayoutOpt.writePlacement rows fs)) ∧
    (LayoutOpt.statusSuccess s = false →
      (LayoutOpt.runLayout required avars W H bs (s :: rest) fs).1 =
        .error "solver status outside the success set; placement.csv not written" ∧
      LayoutOpt.applyResult (LayoutOpt.runLayout required avars W H bs (s :: rest) fs).1 fs
        = fs) := by
  refine ⟨?_, ?_, ?_, ?_⟩
  · cases hs : LayoutOpt.statusSuccess s <;>
      simp [LayoutOpt.runLayout, hbuild, hs, hemit]
  · cases s <;> simp [LayoutOpt.statusSuccess]
  · intro hs
    simp [LayoutOpt.runLayout, hbuild, hs, hemit]
  · intro hs
    simp [LayoutOpt.runLayout, hbuild, hs, hemit, LayoutOpt.applyResult]

/-- Witness for C5: on `INFEASIBLE` the driver raises and an existing
placement table survives untouched. -/
theorem C5_solver_driver_witness :
    (LayoutOpt.runLayout false [] 100 100 [LayoutOpt.goodBooth]
        [LayoutOpt.CpStatus.infeasible]
        { placement := some [LayoutOpt.toRow LayoutOpt.goodBooth], prev := none }).1 =
      .error "solver status outside the success set; placement.csv not written" ∧
    LayoutOpt.applyResult
      (LayoutOpt.runLayout false [] 100 100 [LayoutOpt.goodBooth]
        [LayoutOpt.CpStatus.infeasible]
        { placement := some [LayoutOpt.toRow LayoutOpt.goodBooth], prev := none }).1
      { placement := some [LayoutOpt.toRow LayoutOpt.goodBooth], prev := none }
    = { placement := some [LayoutOpt.toRow LayoutOpt.goodBooth], prev := none } :=
  (C5_solver_driver false [] 100 100 [LayoutOpt.goodBooth] true rfl
    [LayoutOpt.toRow LayoutOpt.goodBooth] rfl
    LayoutOpt.CpStatus.infeasible []
    { placement := some [LayoutOpt.toRow LayoutOpt.goodBooth], prev := none }).2.2.2 rfl

/-- **C7.** Before the placement table is overwritten, an existing
table is snapshotted to the single `.prev` slot: after a successful
run the `.prev` file holds exactly the previous placement content
(regardless of any older backup, so at most one generation exists),
the table holds the new rows, and when no previous table exists the
backup slot is left alone. -/
theorem C7_prev_snapshot
    (rows : List LayoutOpt.PRow) (fs : LayoutOpt.FS) :
    (∀ c, fs.placement = some c →
      (LayoutOpt.writePlacement rows fs).prev = some c ∧
      (LayoutOpt.writePlacement rows fs).placement = some rows) ∧
    (fs.placement = none →
      (LayoutOpt.writePlacement rows fs).prev = fs.prev ∧
      (LayoutOpt.writePlacement rows fs).placement = some rows) ∧
    (∀ (required : Bool) (avars : List Bool) (W H : ℤ)
       (bs : List LayoutOpt.SolvedBooth) (sat : Bool) (s : LayoutOpt.CpStatus)
       (rest : List LayoutOpt.CpStatus) (c : List LayoutOpt.PRow),
      LayoutOpt.attachRequireStep required avars = .ok sat →
      LayoutOpt.emitPlacements W H bs = .ok rows →
      LayoutOpt.statusSuccess s = true →
      fs.placement = some c →
      (LayoutOpt.applyResult (LayoutOpt.runLayout required avars W H bs (s :: rest) fs).1
          fs).prev = some c ∧
      (LayoutOpt.applyResult (LayoutOpt.runLayout required avars W H bs (s :: rest) fs).1
          fs).placement = some rows) := by
  refine ⟨?_, ?_, ?_⟩
  · intro c hc
    simp [LayoutOpt.writePlacement, hc]
  · intro hc
    simp [LayoutOpt.writePlacement, hc]
  · intro required avars W H bs sat s rest c hbuild hemit hs hc
    simp [LayoutOpt.runLayout, hbuild, hs, hemit, LayoutOpt.applyResult,
      LayoutOpt.writePlacement, hc]

/-- Witness for C7: a successful run over a directory holding an old
table leaves that content in the backup slot and the new rows in the
table. -/
theorem C7_prev_snapshot_witness :
    (LayoutOpt.applyResult
      (LayoutOpt.runLayout false [] 100 100 [LayoutOpt.goodBooth]
        [LayoutOpt.CpStatus.optimal]
        { placement := some [], prev := some [LayoutOpt.toRow LayoutOpt.badBooth] }).1
      { placement := some [], prev := some [LayoutOpt.toRow LayoutOpt.badBooth] }).prev
      = some [] ∧
    (LayoutOpt.applyResult
      (LayoutOpt.runLayout false [] 100 100 [LayoutOpt.goodBooth]
        [LayoutOpt.CpStatus.optimal]
        { placement := some [], prev := some [LayoutOpt.toRow LayoutOpt.badBooth] }).1
      { placement := some [], prev := some [LayoutOpt.toRow LayoutOpt.badBooth] }).placement
      = some [LayoutOpt.toRow LayoutOpt.goodBooth] :=
  (C7_prev_snapshot [LayoutOpt.toRow LayoutOpt.goodBooth]
    { placement := some [], prev := some [LayoutOpt.toRow LayoutOpt.badBooth] }).2.2
    false [] 100 100 [LayoutOpt.goodBooth] true LayoutOpt.CpStatus.optimal [] []
    rfl rfl rfl rfl

theorem pyRound_dist (q : ℚ) : |(Py.pyRound q : ℚ) - q| ≤ 1/2 := by
  have h0 : (⌊q⌋ : ℚ) ≤ q := Int.floor_le q
  have h1 : q < ⌊q⌋ + 1 := Int.lt_floor_add_one q
  unfold Py.pyRound
  split_ifs with hc1 hc2 hc3
  · rw [abs_le]
    constructor <;> linarith
  · rw [abs_le]
    push_cast
    constructor <;> linarith
  · have ht : q - ⌊q⌋ = 1/2 := le_antisymm (not_lt.mp hc2) (not_lt.mp hc1)
    rw [abs_le]
    constructor <;> linarith
  · have ht : q - ⌊q⌋ = 1/2 := le_antisymm (not_lt.mp hc2) (not_lt.mp hc1)
    rw [abs_le]
    push_cast
    constructor <;> linarith

/-- **C6.** After assembling the canonical scene, the compiler scales
the hall block, the infrastructure block, and the three mm-valued
requirements keys by the single build-time constant
`SCALE_OUT = 2108407/597700 ≈ 3.528`, rounding each scaled integer to
the nearest integer (ties to even), while the weights block, Boolean
leaves and string leaves are left unscaled. -/
theorem C6_uniform_scaling :
    (3527/1000 < Svg2Config.SCALE_OUT ∧ Svg2Config.SCALE_OUT < 3528/1000 ∧
      |Svg2Config.SCALE_OUT - 3528/1000| < 1/1000) ∧
    (∀ c : Svg2Config.Cfg,
      (Svg2Config.applyScaling c).room =
        Svg2Config.scaleDims Svg2Config.SCALE_OUT c.room ∧
      (Svg2Config.applyScaling c).infrastructure =
        Svg2Config.scaleDims Svg2Config.SCALE_OUT c.infrastructure ∧
      (Svg2Config.applyScaling c).weights = c.weights ∧
      (Svg2Config.applyScaling c).requirements = c.requirements.map
        (fun kv => if kv.1 ∈ Svg2Config.mmReqKeys
          then (kv.1, Svg2Config.scaleReqVal Svg2Config.SCALE_OUT kv.2) else kv)) ∧
    (∀ (s : ℚ) (n : ℤ),
      Svg2Config.scaleDims s (.jint n) = .jint (Py.pyRound (n * s))) ∧
    (∀ (s : ℚ) (b : Bool), Svg2Config.scaleDims s (.jbool b) = .jbool b) ∧
    (∀ (s : ℚ) (t : String), Svg2Config.scaleDims s (.jstr t) = .jstr t) ∧
    (∀ q : ℚ, |(Py.pyRound q : ℚ) - q| ≤ 1/2) := by
  have hcond : Svg2Config.SCALE_OUT ≠ 0 ∧ Svg2Config.SCALE_OUT ≠ 1 := by
    constructor <;> norm_num [Svg2Config.SCALE_OUT]
  refine ⟨⟨?_, ?_, ?_⟩, ?_, ?_, ?_, ?_, pyRound_dist⟩
  · norm_num [Svg2Config.SCALE_OUT]
  · norm_num [Svg2Config.SCALE_OUT]
  · rw [abs_lt]
    constructor <;> norm_num [Svg2Config.SCALE_OUT]
  · intro c
    simp only [Svg2Config.applyScaling, if_pos hcond]
    exact ⟨trivial, trivial, trivial, trivial⟩
  · intro s n
    rfl
  · intro s b
    rfl
  · intro s t
    rfl

/-- **C8.** A rail candidate taken from the first and last points of a
`line`, `path`, or `polyline` is classified as vertical when
`|x1 - x2| ≤ 0.5` (emitting the mean x and the sorted y-range), as
horizontal when `|x1 - x2| > 0.5` and `|y1 - y2| ≤ 0.5` (mean y,
sorted x-range), and otherwise silently dropped; a `path`/`polyline`
with fewer than four numeric tokens yields no candidate, and otherwise
the candidate is `(nums[0], nums[1], nums[-2], nums[-1])`. -/
theorem C8_rail_classification :
    (∀ x1 y1 x2 y2 : ℚ, |x1 - x2| ≤ Svg2Config.EPS_ALIGN →
      Svg2Config.classifyRail x1 y1 x2 y2 =
        some (.vertical (Svg2Config.pyRound3 ((x1 + x2) / 2))
          (Svg2Config.pyRound3 (min y1 y2)) (Svg2Config.pyRound3 (max y1 y2)))) ∧
    (∀ x1 y1 x2 y2 : ℚ, Svg2Config.EPS_ALIGN < |x1 - x2| →
      |y1 - y2| ≤ Svg2Config.EPS_ALIGN →
      Svg2Config.classifyRail x1 y1 x2 y2 =
        some (.horizontal (Svg2Config.pyRound3 ((y1 + y2) / 2))
          (Svg2Config.pyRound3 (min x1 x2)) (Svg2Config.pyRound3 (max x1 x2)))) ∧
    (∀ x1 y1 x2 y2 : ℚ, Svg2Config.EPS_ALIGN < |x1 - x2| →
      Svg2Config.EPS_ALIGN < |y1 - y2| →
      Svg2Config.classifyRail x1 y1 x2 y2 = none) ∧
    (∀ nums : List ℚ, nums.length < 4 → Svg2Config.firstLastXY nums = none) ∧
    (∀ (x1 y1 x2 y2 : ℚ) (mid : List ℚ),
      Svg2Config.firstLastXY (x1 :: y1 :: (mid ++ [x2, y2])) =
        some (x1, y1, x2, y2)) := by
  refine ⟨?_, ?_, ?_, ?_, ?_⟩
  · intro x1 y1 x2 y2 h
    simp [Svg2Config.classifyRail, h]
  · intro x1 y1 x2 y2 h1 h2
    simp [Svg2Config.classifyRail, not_le.mpr h1, h2]
  · intro x1 y1 x2 y2 h1 h2
    simp [Svg2Config.classifyRail, not_le.mpr h1, not_le.mpr h2]
  · intro nums h
    simp [Svg2Config.firstLastXY, h]
  · intro x1 y1 x2 y2 mid
    have hsplit : x1 :: y1 :: (mid ++ [x2, y2]) = ([x1, y1] ++ mid) ++ [x2, y2] := by
      simp
    rw [hsplit]
    have hl : (([x1, y1] ++ mid) ++ [x2, y2]).length = mid.length + 4 := by
      simp [List.length_append]
    have hl1 : ([x1, y1] ++ mid).length = mid.length + 2 := by
      simp [List.length_append]
    simp only [Svg2Config.firstLastXY]
    rw [if_neg (by omega)]
    have e0 : (([x1, y1] ++ mid) ++ [x2, y2]).getD 0 0 = x1 := by
      rw [List.getD_append _ _ _ _ (by rw [hl1]; omega),
        List.getD_append _ _ _ _ (by simp)]
      rfl
    have e1 : (([x1, y1] ++ mid) ++ [x2, y2]).getD 1 0 = y1 := by
      rw [List.getD_append _ _ _ _ (by rw [hl1]; omega),
        List.getD_append _ _ _ _ (by simp)]
      rfl
    have e2 : (([x1, y1] ++ mid) ++ [x2, y2]).getD
        ((([x1, y1] ++ mid) ++ [x2, y2]).length - 2) 0 = x2 := by
      rw [hl, List.getD_append_right _ _ _ _ (by rw [hl1]; omega), hl1]
      have : mid.length + 4 - 2 - (mid.length + 2) = 0 := by omega
      rw [this]
      rfl
    have e3 : (([x1, y1] ++ mid) ++ [x2, y2]).getD
        ((([x1, y1] ++ mid) ++ [x2, y2]).length - 1) 0 = y2 := by
      rw [hl, List.getD_append_right _ _ _ _ (by rw [hl1]; omega), hl1]
      have : mid.length + 4 - 1 - (mid.length + 2) = 1 := by omega
      rw [this]
      rfl
    rw [e0, e1, e2, e3]

/-- Witness for C8: a nearly-vertical rail from `(100, 0)` to
`(100.4, 2000)` is classified vertical at the rounded mean abscissa. -/
theorem C8_rail_classification_witness :
    Svg2Config.classifyRail 100 0 (502/5) 2000 =
      some (.vertical (Svg2Config.pyRound3 ((100 + 502/5) / 2))
        (Svg2Config.pyRound3 (min 0 2000)) (Svg2Config.pyRound3 (max 0 2000))) :=
  C8_rail_classification.1 100 0 (502/5) 2000
    (by rw [abs_le]; constructor <;> norm_num [Svg2Config.EPS_ALIGN])

/-- **C10.** A preferred rectangle takes effect only when all four
columns parse as numbers: if any of the four is missing, blank, or
non-numeric the parsed rectangle is absent and the builder adds
neither a hard containment constraint nor a soft bonus indicator,
whatever the `pref_area_hard` column and the `preferred_area_default`
setting say; when all four parse, the rectangle is exactly the four
parsed values. -/
theorem C10_pref_rect_all_or_nothing :
    (∀ a b c d : Option String,
      (LayoutOpt.toIntOrNone a = none ∨ LayoutOpt.toIntOrNone b = none ∨
       LayoutOpt.toIntOrNone c = none ∨ LayoutOpt.toIntOrNone d = none) →
      LayoutOpt.parsePrefRect a b c d = none ∧
      ∀ (flag : Option String) (defaultHard : Bool),
        LayoutOpt.prefAreaStep (LayoutOpt.parsePrefRect a b c d)
          (LayoutOpt.parsePrefHard flag defaultHard) = .noConstraint) ∧
    (∀ (a b c d : Option String) (x1 y1 x2 y2 : ℤ),
      LayoutOpt.toIntOrNone a = some x1 → LayoutOpt.toIntOrNone b = some y1 →
      LayoutOpt.toIntOrNone c = some x2 → LayoutOpt.toIntOrNone d = some y2 →
      LayoutOpt.parsePrefRect a b c d = some (x1, y1, x2, y2)) := by
  constructor
  · intro a b c d h
    have hnone : LayoutOpt.parsePrefRect a b c d = none := by
      unfold LayoutOpt.parsePrefRect
      rcases ha : LayoutOpt.toIntOrNone a with _ | x1
      · rfl
      · rcases hb : LayoutOpt.toIntOrNone b with _ | y1
        · rfl
        · rcases hc : LayoutOpt.toIntOrNone c with _ | x2
          · rfl
          · rcases hd : LayoutOpt.toIntOrNone d with _ | y2
            · rfl
            · rcases h with h | h | h | h <;> simp_all
    refine ⟨hnone, ?_⟩
    intro flag defaultHard
    rw [hnone]
    rfl
  · intro a b c d x1 y1 x2 y2 ha hb hc hd
    unfold LayoutOpt.parsePrefRect
    rw [ha, hb, hc, hd]

/-- Witness for C10: a blank `pref_ymin_mm` column suppresses both the
rectangle and any constraint even though `pref_area_hard` is `true`. -/
theorem C10_pref_rect_all_or_nothing_witness :
    LayoutOpt.parsePrefRect (some "100") (some " ") (some "2000") (some "3000")
      = none ∧
    LayoutOpt.prefAreaStep
      (LayoutOpt.parsePrefRect (some "100") (some " ") (some "2000") (some "3000"))
      (LayoutOpt.parsePrefHard (some "true") false) = .noConstraint := by
  have h := (C10_pref_rect_all_or_nothing.1 (some "100") (some " ") (some "2000")
    (some "3000") (Or.inr (Or.inl (by rfl))))
  exact ⟨h.1, h.2 (some "true") false⟩

theorem doubled_length (l : List Char) :
    (l.foldr (fun ch acc => ch :: ch :: acc) ([] : List Char)).length = 2 * l.length := by
  induction l with
  | nil => rfl
  | cons a t ih =>
    simp only [List.foldr, List.length_cons, ih]
    omega

theorem doubled_all (l : List Char) (p : Char → Bool) :
    (l.foldr (fun ch acc => ch :: ch :: acc) ([] : List Char)).all p = l.all p := by
  induction l with
  | nil => rfl
  | cons a t ih =>
    simp only [List.foldr, List.all_cons, ih]
    cases p a <;> simp

theorem hexDigitChar_hex (n : ℕ) (h : n < 16) :
    Svg2Config.isHexLower (Svg2Config.hexDigitChar n) = true := by
  interval_cases n <;> decide

theorem fmtRGB_canonical (r g b : ℕ) (hr : r < 256) (hg : g < 256) (hb : b < 256) :
    Svg2Config.isCanonicalHex (Svg2Config.fmtRGB r g b) = true := by
  have h1 := hexDigitChar_hex (r / 16) (by omega)
  have h2 := hexDigitChar_hex (r % 16) (by omega)
  have h3 := hexDigitChar_hex (g / 16) (by omega)
  have h4 := hexDigitChar_hex (g % 16) (by omega)
  have h5 := hexDigitChar_hex (b / 16) (by omega)
  have h6 := hexDigitChar_hex (b % 16) (by omega)
  simp [Svg2Config.isCanonicalHex, Svg2Config.fmtRGB, Svg2Config.isHex6,
    Svg2Config.byteHex, h1, h2, h3, h4, h5, h6]

theorem hex3_double_canonical (cs : List Char) (h : Svg2Config.isHex3 cs = true) :
    Svg2Config.isCanonicalHex (String.mk (Svg2Config.double3 cs)) = true := by
  simp only [Svg2Config.isHex3, Bool.and_eq_true, beq_iff_eq] at h
  obtain ⟨⟨hlen, hhead⟩, hall⟩ := h
  have hdl : (cs.drop 1).length = 3 := by
    rw [List.length_drop, hlen]
  simp only [Svg2Config.isCanonicalHex, Svg2Config.isHex6, Svg2Config.double3,
    List.length_cons, doubled_length, List.headD_cons, List.drop_one,
    List.tail_cons, doubled_all, Bool.and_eq_true, beq_iff_eq]
  rw [List.drop_one] at hall hdl
  refine ⟨⟨by omega, trivial⟩, ?_⟩
  simpa using hall

theorem namedColor_canonical (c h : String) (hn : Svg2Config.namedColor c = some h) :
    Svg2Config.isCanonicalHex h = true := by
  unfold Svg2Config.namedColor at hn
  rcases hf : Svg2Config.NAMED.find? (fun kv => kv.1 == c) with _ | kv
  · rw [hf] at hn
    cases hn
  · rw [hf] at hn
    injection hn with h2
    subst h2
    have hmem : kv ∈ Svg2Config.NAMED := List.mem_of_find?_eq_some hf
    have hvals : ∀ p ∈ Svg2Config.NAMED, Svg2Config.isCanonicalHex p.2 = true := by
      decide
    exact hvals kv hmem

theorem toHex_canonical (c h : String)
    (heq : Svg2Config.toHex (some c) = .ok (some h)) :
    Svg2Config.isCanonicalHex h = true := by
  have hclamp : ∀ v : ℤ, (Svg2Config.clamp255 v).toNat < 256 := by
    intro v
    unfold Svg2Config.clamp255
    omega
  unfold Svg2Config.toHex at heq
  by_cases h0 : c = ""
  · simp [h0] at heq
  simp only [if_neg h0] at heq
  by_cases h1 : Py.strippedLower c = "none"
  · simp [h1] at heq
  simp only [if_neg h1] at heq
  rcases hn : Svg2Config.namedColor (Py.strippedLower c) with _ | v
  · simp only [hn] at heq
    by_cases h3 : Svg2Config.isHex3 (Py.strippedLower c).data = true
    · simp only [h3, if_true] at heq
      simp only [Except.ok.injEq, Option.some.injEq] at heq
      subst heq
      exact hex3_double_canonical _ h3
    · simp only [Bool.not_eq_true] at h3
      simp only [h3, Bool.false_eq_true, if_false] at heq
      by_cases h6 : Svg2Config.isHex6 (Py.strippedLower c).data = true
      · simp only [h6, if_true] at heq
        simp only [Except.ok.injEq, Option.some.injEq] at heq
        subst heq
        exact h6
      · simp only [Bool.not_eq_true] at h6
        simp only [h6, Bool.false_eq_true, if_false] at heq
        rcases hrc : Svg2Config.rgbContent (Py.strippedLower c).data with _ | content
        · simp only [hrc] at heq
          simp at heq
        · simp only [hrc] at heq
          rcases hsp : Svg2Config.splitOnComma content with _ | ⟨p0, _ | ⟨p1, _ | ⟨p2, ps⟩⟩⟩ <;>
            simp only [hsp] at heq
          · simp at heq
          · simp at heq
          · simp at heq
          · rcases hr : Svg2Config.rgbComp p0 with _ | r <;> simp only [hr] at heq
            · simp at heq
            · rcases hg : Svg2Config.rgbComp p1 with _ | g <;> simp only [hg] at heq
              · simp at heq
              · rcases hb : Svg2Config.rgbComp p2 with _ | b <;> simp only [hb] at heq
                · simp at heq
                · simp only [Except.ok.injEq, Option.some.injEq] at heq
                  subst heq
                  exact fmtRGB_canonical _ _ _ (hclamp r) (hclamp g) (hclamp b)
  · simp only [hn] at heq
    simp only [Except.ok.injEq, Option.some.injEq] at heq
    subst heq
    exact namedColor_canonical _ _ hn

/-- Counterexample for **C9**: the named colour `magenta` — one of the
forms the claim says is accepted — passes through the rail-colour
resolver `_norm_hex` unchanged: the result is neither lowercase
`#rrggbb` form nor `None`, while the other resolver `_to_hex` does
normalise it. -/
theorem C9_counterexample :
    Svg2Config.normHex (some "magenta") = some "magenta" ∧
    Svg2Config.isCanonicalHex "magenta" = false ∧
    Svg2Config.toHex (some "magenta") = .ok (some "#ff00ff") :=
  ⟨rfl, rfl, rfl⟩

set_option maxHeartbeats 4000000 in
/-- **C9 (amended).** The general resolver `_to_hex` behaves as the
claim states: every colour it resolves comes out in lowercase
`#rrggbb` form, with 3-digit hex expanded by digit doubling, 6-digit
hex kept, `rgb()`/`rgba()` accepted with byte or percentage components
(alpha ignored, results clamped to `[0, 255]`), the fixed named
colours mapped, and anything unmatched resolving to `None`.  The rail
resolver `_norm_hex`, however, accepts only integer `rgb()` and the
hex forms, and returns any other non-empty input unchanged
(stripped/lower-cased) instead of `None`. -/
theorem C9_color_resolution_amended :
    (∀ c h : String, Svg2Config.toHex (some c) = .ok (some h) →
      Svg2Config.isCanonicalHex h = true) ∧
    Svg2Config.toHex (some "#AABBCC") = .ok (some "#aabbcc") ∧
    Svg2Config.toHex (some "#abc") = .ok (some "#aabbcc") ∧
    Svg2Config.toHex (some "rgb(10, 20, 30)") = .ok (some "#0a141e") ∧
    Svg2Config.toHex (some "rgba(100%, 0%, 40%, 0.5)") = .ok (some "#ff0066") ∧
    Svg2Config.toHex (some "rgb(300, -5, 12)") = .ok (some "#ff000c") ∧
    Svg2Config.toHex (some "magenta") = .ok (some "#ff00ff") ∧
    Svg2Config.toHex (some "garbage") = .ok none ∧
    Svg2Config.toHex none = .ok none ∧
    (∀ c : String, c ≠ "" →
      Svg2Config.rgbIntTriple (Py.strippedLower c).data = none →
      Svg2Config.isHex3 (Py.strippedLower c).data = false →
      Svg2Config.isHex6 (Py.strippedLower c).data = false →
      Svg2Config.normHex (some c) = some (Py.strippedLower c)) := by
  refine ⟨toHex_canonical, rfl, rfl, rfl, rfl, rfl, rfl, rfl, rfl, ?_⟩
  intro c h0 hr h3 h6
  simp only [Svg2Config.normHex]
  rw [if_neg h0]
  simp only [hr, h3, h6, Bool.false_eq_true, if_false]

/-- Witness for the amended C9: the 3-digit form expands to a
canonical lowercase 6-digit colour. -/
theorem C9_color_resolution_amended_witness :
    Svg2Config.isCanonicalHex "#aabbcc" = true :=
  C9_color_resolution_amended.1 "#abc" "#aabbcc" rfl
